import Mathlib

/-!
Verification of the Smart Data Storage engine (`device_cloud/sds.py`)
of Wind-River/device-cloud-python, as a shallow embedding in Lean 4.

Modelling conventions:
* sqlite REAL columns hold the numeric values the callers pass; the
  arithmetic the engine performs on them (comparison, `+`, `-`) is exact
  on the sampled values, so they are embedded as `Int`.
* Python `None` / SQL NULL is `Option.none`; Python truthiness of an
  optional string or number is made explicit (`pyTruthyStr`, `pyTruthyNum`).
* Each table is a list of typed rows kept in insertion order (which is
  also ascending primary-key order, as produced by AUTOINCREMENT);
  every table carries its own next-autoincrement counter.
* A computation that lets a Python exception escape (UnboundLocalError,
  KeyError, TypeError, or an unhandled sqlite error) is embedded as
  `Option.none` / `PyResult.exn`.
* The upstream transport (`client.telemetry_publish` …) is an external
  capability; it is modelled as a function from the 1-based call number
  to the status it returns.  Backend failures of `UPDATE` statements are
  modelled by an oracle `updFail : Nat → Bool` indexed by row key.
-/

namespace SDS

/-! ## Constants of the SmartDataStorage class (sds.py lines 86-119) -/

def TELEMETRY : String := "telemetry"

def LOCATION : String := "location"

def ATTRIBUTE : String := "attribute"

def ALARM : String := "alarm"

def STATE_SENT : String := "sent"

def STATE_UNSENT : String := "unsent"

def STATE_REMOVE : String := "remove"

def STATE_RETAIN : String := "retain"

def STATE_PUBLISHED : String := "published"

def STATE_IGNORE : String := "ignore"

def TELEMETRY_VALUE : String := "value"

def LOCATION_LATITUDE : String := "latitude"

def LOCATION_LONGITUDE : String := "longitude"

def LOCATION_HEADING : String := "heading"

def LOCATION_ALTITUDE : String := "altitude"

def LOCATION_SPEED : String := "speed"

def LOCATION_ACCURACY : String := "accuracy"

def STORAGE_MAX_DAYS : String := "max_days"

def STORAGE_LIMITED : String := "limited"

def STORAGE_LIMITED_MAX : Nat := 1000000

def STORAGE_LIMITED_NUM_TO_AGE : Nat := 20

def STORAGE_AGE_OLDEST : Nat := 1

def STORAGE_KEEP_OLDEST : Nat := 2

/-- Modelled from the spec: the status codes of
`device_cloud._core.constants` (that module is not under `src/`; only
`sds.py` and the demos are).  Per spec section 7 the engine surfaces typed
statuses; `sds.py` uses `STATUS_SUCCESS`, `STATUS_FAILURE`,
`STATUS_FULL` and (line 466) `STATUS_STATUS_FULL`, the storage-full
signal of the spec's `Error::StorageFull`, modelled here as
`storage_full`. -/
inductive Status where
  | success : Status
  | failure : Status
  | full : Status
  | storage_full : Status
deriving DecidableEq

/-! ## Row types, one per table schema (sds.py lines 173-221) -/

structure TelemetryRow where
  idx : Nat
  data_type : String
  name : Option String
  value : Option Int
  msg : Option String
  ts : String
  desc : String
  status : String
deriving DecidableEq

structure LocationRow where
  idx : Nat
  data_type : String
  name : String
  latitude : Option Int
  longitude : Option Int
  heading : Option Int
  altitude : Option Int
  speed : Option Int
  accuracy : Option Int
  fix_type : Option Int
  msg : Option String
  ts : String
  status : String
deriving DecidableEq

structure AlarmRow where
  idx : Nat
  data_type : String
  name : Option String
  alarm_state : Option Int
  msg : Option String
  repub : Bool
  ts : String
  corr_id : Option String
  lat : Option Int
  lng : Option Int
  desc : Option String
  status : String
deriving DecidableEq

structure AttributeRow where
  idx : Nat
  data_type : Option String
  name : Option String
  corr_id : Option String
  desc : Option String
  repub : Bool
  ts : String
  status : String
deriving DecidableEq

/-- The four tables of one store, each with its AUTOINCREMENT counter
(the next primary key to hand out; sqlite starts at 1). -/
structure DB where
  telemetry : List TelemetryRow
  location : List LocationRow
  alarm : List AlarmRow
  attrs : List AttributeRow
  t_seq : Nat
  l_seq : Nat
  a_seq : Nat
  at_seq : Nat
deriving DecidableEq

def emptyDB : DB := ⟨[], [], [], [], 1, 1, 1, 1⟩

/-- Instance configuration fields set in `__init__` (sds.py lines 127-147). -/
structure Config where
  retention_policy : String
  retention_drop_mode : Nat
  retain_max_entries : Nat
  num_to_age : Nat
  max_days_to_retain : Nat
deriving DecidableEq

def defaultConfig : Config :=
  ⟨STORAGE_LIMITED, STORAGE_AGE_OLDEST, STORAGE_LIMITED_MAX,
   STORAGE_LIMITED_NUM_TO_AGE, 31⟩

/-- `self.table_list` (sds.py lines 131-134). -/
def table_list : List String := [TELEMETRY, LOCATION, ATTRIBUTE, ALARM]

/-- `self.field_list` (sds.py lines 135-141). -/
def field_list : List String :=
  [TELEMETRY_VALUE, LOCATION_LATITUDE, LOCATION_LONGITUDE, LOCATION_HEADING,
   LOCATION_ALTITUDE, LOCATION_SPEED, LOCATION_ACCURACY]

/-- `is_type_valid` (sds.py lines 229-244): linear scan of `table_list`
comparing with `==`. -/
def is_type_valid (table : String) : Bool := table_list.contains table

/-- Python truthiness of an optional string: `None` and `""` are falsy. -/
def pyTruthyStr : Option String → Bool
  | none => false
  | some s => s ≠ ""

/-- Python truthiness of an optional number: `None` and `0` are falsy. -/
def pyTruthyNum : Option Int → Bool
  | none => false
  | some v => v ≠ 0

/-! ## get_row_count (sds.py lines 475-503) -/

def tableLength (db : DB) (table : String) : Nat :=
  if table = TELEMETRY then db.telemetry.length
  else if table = LOCATION then db.location.length
  else if table = ALARM then db.alarm.length
  else db.attrs.length

/-- `get_row_count` (sds.py lines 475-503).  `queryFails` models a
backend error of the `SELECT count(idx)` statement.  In the valid-table
branch `fetchone` yields the non-empty (hence truthy) tuple `(n,)` from
which `n` is extracted, and on a caught query error `count` is set to the
integer `0`; either way an integer is returned.  In the invalid-table
branch the local `count` is never assigned (only `rows = []` is), so the
final `if not count` raises UnboundLocalError: embedded as `none`. -/
def get_row_count (db : DB) (table : String) (queryFails : Bool) : Option Nat :=
  if is_type_valid table then
    if queryFails then some 0 else some (tableLength db table)
  else
    none

/-! ## Retention (sds.py lines 436-473) -/

/-- Number of rows of `rows` whose key is strictly below that of `r`:
with distinct primary keys, `r` is among the `b` oldest rows exactly when
`oldestCount … r < b`. -/
def oldestCount (key : α → Nat) (rows : List α) (r : α) : Nat :=
  rows.countP (fun s => key s < key r)

/-- The retention DELETE of sds.py lines 460-461:
`DELETE FROM t WHERE idx IN (SELECT idx FROM t ORDER BY idx ASC LIMIT b)`,
i.e. remove the `b` rows with the smallest primary key.  `idx` is the
primary key, so keys are distinct and a row survives exactly when at
least `b` rows are older than it. -/
def delete_oldest (key : α → Nat) (b : Nat) (rows : List α) : List α :=
  rows.filter (fun r => b ≤ oldestCount key rows r)

def db_delete_oldest (db : DB) (table : String) (b : Nat) : DB :=
  if table = TELEMETRY then
    { db with telemetry := delete_oldest (fun r => r.idx) b db.telemetry }
  else if table = LOCATION then
    { db with location := delete_oldest (fun r => r.idx) b db.location }
  else if table = ALARM then
    { db with alarm := delete_oldest (fun r => r.idx) b db.alarm }
  else
    { db with attrs := delete_oldest (fun r => r.idx) b db.attrs }

/-- The MAX_DAYS DELETE of sds.py lines 469-471 removes the rows whose
`ts` is older than `now - max_days_to_retain` days; the SQL datetime
comparison against the current time is an external input, passed in as
the predicate `tsOld`. -/
def db_delete_old_ts (db : DB) (table : String) (tsOld : String → Bool) : DB :=
  if table = TELEMETRY then
    { db with telemetry := db.telemetry.filter (fun r => ¬ tsOld r.ts) }
  else if table = LOCATION then
    { db with location := db.location.filter (fun r => ¬ tsOld r.ts) }
  else if table = ALARM then
    { db with alarm := db.alarm.filter (fun r => ¬ tsOld r.ts) }
  else
    { db with attrs := db.attrs.filter (fun r => ¬ tsOld r.ts) }

/-- `apply_retention_policy` (sds.py lines 436-473).  `ret` starts as
`STATUS_SUCCESS`; under the `STORAGE_LIMITED` policy a full table is
either aged (`STORAGE_AGE_OLDEST`: delete the `num_to_age` oldest rows,
the `custom_sql_command` succeeding) or, for any other drop mode, left
untouched with `ret = constants.STATUS_STATUS_FULL` (line 466) — no row
is deleted and nothing else happens.  `none` models the uncaught
exception `get_row_count` raises on an invalid table name.  The two
policy tests of the source are sequential `if`s, but the policy is a
single string so at most one branch fires. -/
def apply_retention_policy (cfg : Config) (tsOld : String → Bool) (db : DB)
    (table : String) : Option (DB × Status) :=
  if cfg.retention_policy = STORAGE_LIMITED then
    match get_row_count db table false with
    | none => none
    | some count =>
      if cfg.retain_max_entries ≤ count then
        if cfg.retention_drop_mode = STORAGE_AGE_OLDEST then
          some (db_delete_oldest db table cfg.num_to_age, Status.success)
        else
          some (db, Status.storage_full)
      else
        some (db, Status.success)
  else if cfg.retention_policy = STORAGE_MAX_DAYS then
    if cfg.max_days_to_retain ≠ 0 then
      some (db_delete_old_ts db table tsOld, Status.success)
    else
      some (db, Status.success)
  else
    some (db, Status.success)

/-! ## insert (sds.py lines 246-360) -/

/-- The keyword arguments of the generic `insert` handler other than
`table` and `state` (sds.py lines 291-299). -/
structure InsertFields where
  name : Option String
  msg : Option String
  ts : Option String
  value : Option Int
  latitude : Option Int
  longitude : Option Int
  heading : Option Int
  altitude : Option Int
  speed : Option Int
  accuracy : Option Int
  fix_type : Option Int
  alarm_state : Option Int
  republish : Bool
deriving DecidableEq

/-- The default values of `insert`'s keyword arguments (`msg=""`, the
rest `None` / `False`). -/
def insertDefaults : InsertFields :=
  ⟨none, some "", none, none, none, none, none, none, none, none, none,
   none, false⟩

/-- sds.py lines 323-324: `if not state: state = self.STATE_SENT` — any
falsy state value (None or the empty string) is replaced by `'sent'`. -/
def defaultedState (state : Option String) : String :=
  if pyTruthyStr state then state.getD "" else STATE_SENT

/-- sds.py lines 326-327: a falsy `ts` is replaced by the current UTC
time, passed in as `nowTs`. -/
def defaultedTs (ts : Option String) (nowTs : String) : String :=
  if pyTruthyStr ts then ts.getD "" else nowTs

/-- The telemetry VALUES tuple of sds.py lines 337-338:
`(table, name, value, msg, ts, "desc", state)` after the fresh key. -/
def mkTelemetryRow (seq : Nat) (f : InsertFields) (ts st : String) : TelemetryRow :=
  ⟨seq, TELEMETRY, f.name, f.value, f.msg, ts, "desc", st⟩

/-- The location VALUES tuple of sds.py lines 340-343:
`("location", "location", latitude, longitude, heading, altitude, speed,
accuracy, fix_type, msg, ts, state)` after the fresh key. -/
def mkLocationRow (seq : Nat) (f : InsertFields) (ts st : String) : LocationRow :=
  ⟨seq, "location", "location", f.latitude, f.longitude, f.heading,
   f.altitude, f.speed, f.accuracy, f.fix_type, f.msg, ts, st⟩

/-- The alarm VALUES tuple of sds.py lines 345-347:
`(table, name, alarm_state, msg, republish, ts, None, None, None, None,
state)` after the fresh key. -/
def mkAlarmRow (seq : Nat) (f : InsertFields) (ts st : String) : AlarmRow :=
  ⟨seq, ALARM, f.name, f.alarm_state, f.msg, f.republish, ts, none, none,
   none, none, st⟩

/-- The generic `insert` handler (sds.py lines 291-360): default the
state and timestamp, reject an invalid table with `STATUS_FULL`,
otherwise run the retention policy (its return value is discarded, line
335), then build and append the row for the matching table branch and
return `STATUS_SUCCESS`.  The `attribute` table passes the validity
check but matches no branch, so `sql`/`values` are unbound at the
`execute` call: an uncaught UnboundLocalError, embedded as `none`. -/
def insert (cfg : Config) (tsOld : String → Bool) (nowTs : String) (db : DB)
    (table : String) (state0 : Option String) (f : InsertFields) :
    Option (DB × Status) :=
  let state := defaultedState state0
  let ts := defaultedTs f.ts nowTs
  if is_type_valid table then
    match apply_retention_policy cfg tsOld db table with
    | none => none
    | some (db1, _) =>
      if table = TELEMETRY then
        some ({ db1 with
                  telemetry := db1.telemetry ++ [mkTelemetryRow db1.t_seq f ts state],
                  t_seq := db1.t_seq + 1 },
              Status.success)
      else if table = LOCATION then
        some ({ db1 with
                  location := db1.location ++ [mkLocationRow db1.l_seq f ts state],
                  l_seq := db1.l_seq + 1 },
              Status.success)
      else if table = ALARM then
        some ({ db1 with
                  alarm := db1.alarm ++ [mkAlarmRow db1.a_seq f ts state],
                  a_seq := db1.a_seq + 1 },
              Status.success)
      else
        none
  else
    some (db, Status.full)

/-- `insert_telemetry` (sds.py lines 251-265): forwards to `insert` with
`table=TELEMETRY` and its own arguments (all of which default to `None`
in the wrapper, including `state`). -/
def insert_telemetry (cfg : Config) (tsOld : String → Bool) (nowTs : String)
    (db : DB) (name : Option String) (value : Option Int)
    (msg ts state : Option String) : Option (DB × Status) :=
  insert cfg tsOld nowTs db TELEMETRY state
    { insertDefaults with name := name, value := value, msg := msg, ts := ts }

/-- `insert_location` (sds.py lines 267-289).  Source lines 286-287 pass
`latitude=latitude, longitude=latitude`: the caller's `longitude`
argument is discarded and the latitude is stored in both columns. -/
def insert_location (cfg : Config) (tsOld : String → Bool) (nowTs : String)
    (db : DB) (latitude longitude speed heading altitude accuracy fix_type : Option Int)
    (msg ts state : Option String) : Option (DB × Status) :=
  insert cfg tsOld nowTs db LOCATION state
    { insertDefaults with
      latitude := latitude, longitude := latitude,
      heading := heading, altitude := altitude, speed := speed,
      accuracy := accuracy, fix_type := fix_type, msg := msg, ts := ts }

/-- `insert_alarm` (sds.py lines 246-249). -/
def insert_alarm (cfg : Config) (tsOld : String → Bool) (nowTs : String)
    (db : DB) (name : Option String) (alarm_state : Option Int)
    (msg : Option String) (republish : Bool) (ts state : Option String) :
    Option (DB × Status) :=
  insert cfg tsOld nowTs db ALARM state
    { insertDefaults with
      name := name, alarm_state := alarm_state,
      msg := msg, republish := republish, ts := ts }

/-! ## Selects (sds.py lines 505-527 and 584-605) -/

/-- The rows a `SELECT *` cursor yields, tagged by table. -/
inductive TableRows where
  | telemetryRows : List TelemetryRow → TableRows
  | locationRows : List LocationRow → TableRows
  | alarmRows : List AlarmRow → TableRows
  | attributeRows : List AttributeRow → TableRows
deriving DecidableEq

/-- `select_table` (sds.py lines 584-605): `SELECT * FROM table`; `None`
for an unsupported table name.  Without an ORDER BY clause sqlite yields
rows in rowid (= insertion) order, the order of the embedded lists. -/
def select_table (db : DB) (table : String) : Option TableRows :=
  if is_type_valid table then
    some (if table = TELEMETRY then TableRows.telemetryRows db.telemetry
          else if table = LOCATION then TableRows.locationRows db.location
          else if table = ALARM then TableRows.alarmRows db.alarm
          else TableRows.attributeRows db.attrs)
  else
    none

/-- `select_all_by_state` (sds.py lines 505-527):
`SELECT * FROM table WHERE status = state`; `None` for an unsupported
table name. -/
def select_all_by_state (db : DB) (table state : String) : Option TableRows :=
  if is_type_valid table then
    some (if table = TELEMETRY then
            TableRows.telemetryRows (db.telemetry.filter (fun r => r.status = state))
          else if table = LOCATION then
            TableRows.locationRows (db.location.filter (fun r => r.status = state))
          else if table = ALARM then
            TableRows.alarmRows (db.alarm.filter (fun r => r.status = state))
          else
            TableRows.attributeRows (db.attrs.filter (fun r => r.status = state)))
  else
    none

/-! ## update_state (sds.py lines 737-761) -/

/-- `update_state` (sds.py lines 737-761):
`UPDATE table SET status = state WHERE idx = idx` in a transaction; on a
backend error (modelled by `fail`) the transaction is rolled back, the
row is unchanged and `STATUS_FAILURE` is returned.  An unknown table
name makes the UPDATE itself fail, which the same handler catches. -/
def update_state (db : DB) (table : String) (idx : Nat) (state : String)
    (fail : Bool) : DB × Status :=
  if fail then (db, Status.failure)
  else if table = TELEMETRY then
    ({ db with telemetry :=
         db.telemetry.map (fun r => if r.idx = idx then { r with status := state } else r) },
     Status.success)
  else if table = LOCATION then
    ({ db with location :=
         db.location.map (fun r => if r.idx = idx then { r with status := state } else r) },
     Status.success)
  else if table = ALARM then
    ({ db with alarm :=
         db.alarm.map (fun r => if r.idx = idx then { r with status := state } else r) },
     Status.success)
  else if table = ATTRIBUTE then
    ({ db with attrs :=
         db.attrs.map (fun r => if r.idx = idx then { r with status := state } else r) },
     Status.success)
  else
    (db, Status.failure)

/-! ## data_smooth_on_change (sds.py lines 362-433) -/

/-- Result of a Python call that may return normally or let an exception
escape. -/
inductive PyResult (α : Type) where
  | ok : α → PyResult α
  | exn : PyResult α
deriving DecidableEq

/-- The comparison walk of sds.py lines 409-424 over the `(idx, field
value)` pairs of the selected rows, carrying `last` (initially `None`).
A row is appended to the ignore list when `last` is truthy (`if last:` —
`None` and `0` are both falsy) and the current value equals the previous
one or differs from it by at most `plus_minus` on the matching side.
`last` is set to the current value on every iteration.  When `last` is
truthy and the current value is `None`, `curr == last` is `False` and
the subsequent `curr > last` comparison raises TypeError (Python 3):
embedded as `none`. -/
def smooth_scan (pm : Int) : Option Int → List (Nat × Option Int) → Option (List Nat)
  | _, [] => some []
  | last, (idx, curr) :: rest =>
    if pyTruthyNum last then
      match last, curr with
      | some l, some c =>
        if c = l ∨ (c > l ∧ c - pm ≤ l) ∨ (c < l ∧ c + pm ≥ l) then
          (smooth_scan pm curr rest).map (fun t => idx :: t)
        else
          smooth_scan pm curr rest
      | _, none => none
      | none, _ => none
    else
      smooth_scan pm curr rest

/-- `get_table_info(table)[field]` combined with the
`SELECT * FROM table WHERE status = 'unsent'` of sds.py line 404,
projected to the `(idx, field value)` pairs the walk consumes.  A field
name absent from the table's schema (or a table that does not exist, for
which `pragma table_info` yields an empty map) raises KeyError at
`t[field_name]`: embedded as `none`. -/
def unsent_field_values (db : DB) (table field : String) :
    Option (List (Nat × Option Int)) :=
  if table = TELEMETRY then
    if field = TELEMETRY_VALUE then
      some ((db.telemetry.filter (fun r => r.status = STATE_UNSENT)).map
        (fun r => (r.idx, r.value)))
    else none
  else if table = LOCATION then
    (if field = LOCATION_LATITUDE then some (fun r : LocationRow => r.latitude)
     else if field = LOCATION_LONGITUDE then some (fun r : LocationRow => r.longitude)
     else if field = LOCATION_HEADING then some (fun r : LocationRow => r.heading)
     else if field = LOCATION_ALTITUDE then some (fun r : LocationRow => r.altitude)
     else if field = LOCATION_SPEED then some (fun r : LocationRow => r.speed)
     else if field = LOCATION_ACCURACY then some (fun r : LocationRow => r.accuracy)
     else none).map
      (fun proj => (db.location.filter (fun r => r.status = STATE_UNSENT)).map
        (fun r => (r.idx, proj r)))
  else
    none

/-- `data_smooth_on_change` (sds.py lines 362-433).  A field name not in
`field_list` is rejected up front: the function returns `None` having
performed no backend operation (the middle component counts the backend
reads performed: the `pragma table_info` of `get_table_info`, then the
SELECT).  Otherwise the unsent rows are scanned and every index the walk
flagged is updated — to the constant `self.STATE_IGNORE` (line 430), not
to the `state` argument — continuing past per-row update failures
(modelled by `updFail`), and the ignore list is returned. -/
def data_smooth_on_change (updFail : Nat → Bool) (db : DB)
    (table field_name : String) (plus_minus : Int) (state : String) :
    DB × Nat × PyResult (Option (List Nat)) :=
  if field_name ∈ field_list then
    match unsent_field_values db table field_name with
    | none => (db, 1, PyResult.exn)
    | some pairs =>
      match smooth_scan plus_minus none pairs with
      | none => (db, 2, PyResult.exn)
      | some ignore_list =>
        (ignore_list.foldl
          (fun d i => (update_state d table i STATE_IGNORE (updFail i)).1) db,
         2, PyResult.ok (some ignore_list))
  else
    (db, 0, PyResult.ok none)

/-- Lift a sequence of `(idx, value)` pairs with every value present to
the cursor rows `smooth_scan` consumes. -/
def toScanRows (l : List (Nat × Int)) : List (Nat × Option Int) :=
  l.map (fun p => (p.1, some p.2))

/-- The ignore list the comparison walk produces on a sequence of rows
whose field values are all non-NULL (on such rows the walk never
raises). -/
def scan_marks (pm : Int) (l : List (Nat × Int)) : List Nat :=
  (smooth_scan pm none (toScanRows l)).getD []

/-- Reference recursion for the walk on all-present values, carrying the
previous value `pv`: used to relate `smooth_scan` to the pairwise rule. -/
def marksFrom (pm pv : Int) : List (Nat × Int) → List Nat
  | [] => []
  | (i, c) :: rest =>
    if pv ≠ 0 ∧ (c = pv ∨ (c > pv ∧ c - pm ≤ pv) ∨ (c < pv ∧ c + pm ≥ pv)) then
      i :: marksFrom pm c rest
    else
      marksFrom pm c rest

/-! ## publish_unsent_telemetry (sds.py lines 652-689) -/

/-- The send loop of sds.py lines 671-680 over the unsent rows:
`status` starts as `STATUS_FAILURE`, each iteration calls the upstream
sender (modelled by its per-call-number result) and either records the
row's key for the later update loop or breaks.  Returns the recorded
keys in order and the final `status`. -/
def publish_loop (sender : Nat → Status) :
    List TelemetryRow → Nat → Status → List Nat × Status
  | [], _, st => ([], st)
  | r :: rest, n, _ =>
    let st := sender n
    if st = Status.success then
      let p := publish_loop sender rest (n + 1) st
      (r.idx :: p.1, p.2)
    else
      ([], st)

/-- `publish_unsent_telemetry` (sds.py lines 652-689): select the unsent
telemetry rows (`select_all_by_state(TELEMETRY, 'unsent')` specialised
to the telemetry table), run the send loop, and only `if status ==
STATUS_SUCCESS` run the update loop setting each recorded row to
`new_state` (each update's own status is discarded, so update failures
are ignored). -/
def publish_unsent_telemetry (sender : Nat → Status) (updFail : Nat → Bool)
    (db : DB) (new_state : String) : DB × Status :=
  let p := publish_loop sender
    (db.telemetry.filter (fun r => r.status = STATE_UNSENT)) 1 Status.failure
  if p.2 = Status.success then
    (p.1.foldl (fun d i => (update_state d TELEMETRY i new_state (updFail i)).1) db,
     p.2)
  else
    (db, p.2)

/-! ## Concrete fixtures used by closed theorems and witnesses -/

def sampleTs : String := "2025-01-01 00:00:00.000000"

def sampleTelemetryRow (i : Nat) (v : Int) (st : String) : TelemetryRow :=
  ⟨i, TELEMETRY, some "n", some v, none, sampleTs, "desc", st⟩

/-- A store holding two unsent telemetry rows with equal values. -/
def sampleDB2 : DB :=
  ⟨[sampleTelemetryRow 1 5 STATE_UNSENT, sampleTelemetryRow 2 5 STATE_UNSENT],
   [], [], [], 3, 1, 1, 1⟩

/-- A store holding three unsent telemetry rows. -/
def sampleDB3 : DB :=
  ⟨[sampleTelemetryRow 1 5 STATE_UNSENT, sampleTelemetryRow 2 6 STATE_UNSENT,
    sampleTelemetryRow 3 7 STATE_UNSENT],
   [], [], [], 4, 1, 1, 1⟩

/-! ## Helper lemmas -/

theorem delete_oldest_of_sorted (key : α → Nat) :
    ∀ (rows : List α) (b : Nat), (rows.map key).Pairwise (· < ·) →
      delete_oldest key b rows = rows.drop b := by
  intro rows
  induction rows with
  | nil => intro b _; simp [delete_oldest]
  | cons r rest ih =>
    intro b hpw
    rw [List.map_cons, List.pairwise_cons] at hpw
    have hlt : ∀ s ∈ rest, key r < key s := by
      intro s hs
      exact hpw.1 (key s) (List.mem_map_of_mem key hs)
    have hcnt_r : oldestCount key (r :: rest) r = 0 := by
      unfold oldestCount
      rw [List.countP_cons]
      have h1 : rest.countP (fun s => decide (key s < key r)) = 0 := by
        rw [List.countP_eq_zero]
        intro s hs
        simp only [decide_eq_true_eq]
        exact Nat.not_lt.mpr (Nat.le_of_lt (hlt s hs))
      simp [h1]
    have hcnt : ∀ x ∈ rest,
        oldestCount key (r :: rest) x = oldestCount key rest x + 1 := by
      intro x hx
      unfold oldestCount
      rw [List.countP_cons]
      simp [hlt x hx]
    match b with
    | 0 =>
      rw [List.drop_zero]
      apply List.filter_eq_self.mpr
      intro x _
      simp
    | b + 1 =>
      unfold delete_oldest
      rw [List.filter_cons]
      have hrc : ¬ (b + 1 ≤ oldestCount key (r :: rest) r) := by
        rw [hcnt_r]; omega
      simp only [decide_eq_true_eq, hrc, if_false]
      have hcg : List.filter (fun x => decide (b + 1 ≤ oldestCount key (r :: rest) x)) rest
          = List.filter (fun x => decide (b ≤ oldestCount key rest x)) rest := by
        apply List.filter_congr
        intro x hx
        rw [hcnt x hx]
        simp only [decide_eq_decide]
        omega
      rw [hcg]
      have := ih b ((List.pairwise_map.mp (List.pairwise_map.mpr hpw.2)))
      unfold delete_oldest at this
      rw [this, List.drop_succ_cons]

/-! ## Claim theorems -/

/-- C6: under `LimitedCount(max = N, batch = B, AgeOldest)` (policy
`STORAGE_LIMITED`, drop mode `STORAGE_AGE_OLDEST`), an insert into a
telemetry table whose row count has reached `N` first deletes the `B`
rows with the smallest indices and then appends the new row, leaving the
`N - B` most recent pre-existing rows plus the new one: `N - B + 1` rows
in total. -/
theorem C6_age_oldest_retention (N B d : Nat) (tsOld : String → Bool)
    (nowTs : String) (db : DB) (state0 : Option String) (f : InsertFields)
    (hlen : db.telemetry.length = N) (hBN : B ≤ N)
    (hpw : (db.telemetry.map (fun r => r.idx)).Pairwise (· < ·)) :
    insert ⟨STORAGE_LIMITED, STORAGE_AGE_OLDEST, N, B, d⟩ tsOld nowTs db
        TELEMETRY state0 f =
      some ({ db with
                telemetry := db.telemetry.drop B ++
                  [mkTelemetryRow db.t_seq f (defaultedTs f.ts nowTs)
                    (defaultedState state0)],
                t_seq := db.t_seq + 1 },
            Status.success) ∧
    (db.telemetry.drop B ++
      [mkTelemetryRow db.t_seq f (defaultedTs f.ts nowTs)
        (defaultedState state0)]).length = N - B + 1 := by
  have hvalid : is_type_valid TELEMETRY = true := by decide
  have hgrc : get_row_count db TELEMETRY false = some db.telemetry.length := by
    unfold get_row_count tableLength
    rw [hvalid]
    simp
  have hret : apply_retention_policy ⟨STORAGE_LIMITED, STORAGE_AGE_OLDEST, N, B, d⟩
      tsOld db TELEMETRY =
      some ({ db with telemetry := db.telemetry.drop B }, Status.success) := by
    unfold apply_retention_policy
    rw [if_pos rfl, hgrc, hlen]
    simp only [Nat.le_refl, if_true, if_pos rfl]
    unfold db_delete_oldest
    rw [if_pos rfl, delete_oldest_of_sorted (fun r => r.idx) db.telemetry B hpw]
  constructor
  · unfold insert
    rw [hvalid, if_pos rfl, hret]
    rfl
  · rw [List.length_append, List.length_drop, hlen]
    simp

/-- C7: under `LimitedCount` with drop mode `STORAGE_KEEP_OLDEST`, an
insert into a full telemetry table has the retention step signal
storage-full without deleting anything (it returns the table untouched),
and — because `insert` discards the retention status — the insert still
proceeds: the new row is appended and no existing row is removed. -/
theorem C7_keep_oldest_storage_full_insert_proceeds (N B d : Nat)
    (tsOld : String → Bool) (nowTs : String) (db : DB)
    (state0 : Option String) (f : InsertFields)
    (hfull : N ≤ db.telemetry.length) :
    apply_retention_policy ⟨STORAGE_LIMITED, STORAGE_KEEP_OLDEST, N, B, d⟩
        tsOld db TELEMETRY = some (db, Status.storage_full) ∧
    insert ⟨STORAGE_LIMITED, STORAGE_KEEP_OLDEST, N, B, d⟩ tsOld nowTs db
        TELEMETRY state0 f =
      some ({ db with
                telemetry := db.telemetry ++
                  [mkTelemetryRow db.t_seq f (defaultedTs f.ts nowTs)
                    (defaultedState state0)],
                t_seq := db.t_seq + 1 },
            Status.success) := by
  have hvalid : is_type_valid TELEMETRY = true := by decide
  have hgrc : get_row_count db TELEMETRY false = some db.telemetry.length := by
    unfold get_row_count tableLength
    rw [hvalid]
    simp
  have hmode : ¬ (STORAGE_KEEP_OLDEST = STORAGE_AGE_OLDEST) := by decide
  have hret : apply_retention_policy ⟨STORAGE_LIMITED, STORAGE_KEEP_OLDEST, N, B, d⟩
      tsOld db TELEMETRY = some (db, Status.storage_full) := by
    unfold apply_retention_policy
    rw [if_pos rfl, hgrc]
    simp only [if_pos hfull, if_neg hmode]
  refine ⟨hret, ?_⟩
  unfold insert
  rw [hvalid, if_pos rfl, hret]
  rfl

/-- C6 witness: with `max = 3`, `batch = 2`, AgeOldest, inserting into a
store holding three telemetry rows deletes the two oldest and appends
the new row: 2 = 3 - 2 + 1 rows survive. -/
theorem C6_age_oldest_retention_witness :
    (sampleDB3.telemetry.length = 3 ∧ 2 ≤ 3 ∧
      (sampleDB3.telemetry.map (fun r => r.idx)).Pairwise (· < ·)) ∧
    (insert ⟨STORAGE_LIMITED, STORAGE_AGE_OLDEST, 3, 2, 31⟩ (fun _ => false)
        sampleTs sampleDB3 TELEMETRY (some STATE_UNSENT) insertDefaults =
      some ({ sampleDB3 with
                telemetry := sampleDB3.telemetry.drop 2 ++
                  [mkTelemetryRow sampleDB3.t_seq insertDefaults
                    (defaultedTs insertDefaults.ts sampleTs)
                    (defaultedState (some STATE_UNSENT))],
                t_seq := sampleDB3.t_seq + 1 },
            Status.success) ∧
      (sampleDB3.telemetry.drop 2 ++
        [mkTelemetryRow sampleDB3.t_seq insertDefaults
          (defaultedTs insertDefaults.ts sampleTs)
          (defaultedState (some STATE_UNSENT))]).length = 3 - 2 + 1) :=
  ⟨⟨rfl, by decide, by decide⟩,
   C6_age_oldest_retention 3 2 31 (fun _ => false) sampleTs sampleDB3
     (some STATE_UNSENT) insertDefaults rfl (by decide) (by decide)⟩

/-- C7 witness: with `max = 2` and KeepOldest, inserting into a store
holding two telemetry rows signals storage-full, deletes nothing, and
still appends the new row. -/
theorem C7_keep_oldest_storage_full_insert_proceeds_witness :
    (2 ≤ sampleDB2.telemetry.length) ∧
    (apply_retention_policy ⟨STORAGE_LIMITED, STORAGE_KEEP_OLDEST, 2, 20, 31⟩
        (fun _ => false) sampleDB2 TELEMETRY = some (sampleDB2, Status.storage_full) ∧
     insert ⟨STORAGE_LIMITED, STORAGE_KEEP_OLDEST, 2, 20, 31⟩ (fun _ => false)
        sampleTs sampleDB2 TELEMETRY (some STATE_UNSENT) insertDefaults =
      some ({ sampleDB2 with
                telemetry := sampleDB2.telemetry ++
                  [mkTelemetryRow sampleDB2.t_seq insertDefaults
                    (defaultedTs insertDefaults.ts sampleTs)
                    (defaultedState (some STATE_UNSENT))],
                t_seq := sampleDB2.t_seq + 1 },
            Status.success)) :=
  ⟨by decide,
   C7_keep_oldest_storage_full_insert_proceeds 2 20 31 (fun _ => false)
     sampleTs sampleDB2 (some STATE_UNSENT) insertDefaults (by decide)⟩

/-- The send loop propagates the first failing sender result: if the
sender succeeds on calls `n … n+j-1` and call `n+j` does not succeed,
and at least `j+1` rows remain, the loop's final status is the result of
call `n+j`. -/
theorem publish_loop_fail_status (sender : Nat → Status) :
    ∀ (j : Nat) (rows : List TelemetryRow) (n : Nat) (st0 : Status),
      (∀ i, n ≤ i → i < n + j → sender i = Status.success) →
      sender (n + j) ≠ Status.success →
      j < rows.length →
      (publish_loop sender rows n st0).2 = sender (n + j) := by
  intro j
  induction j with
  | zero =>
    intro rows n st0 _ hfail hlen
    match rows with
    | r :: rest =>
      unfold publish_loop
      rw [if_neg (by simpa using hfail)]
      simp
  | succ j ih =>
    intro rows n st0 hsucc hfail hlen
    match rows with
    | r :: rest =>
      unfold publish_loop
      have hn : sender n = Status.success := hsucc n (Nat.le_refl n) (by omega)
      rw [if_pos hn]
      have := ih rest (n + 1) (sender n)
        (fun i h1 h2 => hsucc i (by omega) (by omega))
        (by
          have he : n + 1 + j = n + (j + 1) := by omega
          rw [he]; exact hfail)
        (by simpa using Nat.lt_of_succ_lt_succ hlen)
      rw [this]
      have he : n + 1 + j = n + (j + 1) := by omega
      rw [he]

/-- C2 counterexample: three unsent rows and a sender that succeeds on
the 1st call and fails on the 2nd.  The claim says row 1 ends in the
chosen success state; in fact the update loop is skipped entirely (it
runs only `if status == STATUS_SUCCESS`), every row — including row 1 —
is still `'unsent'`, and the call reports the failure. -/
theorem C2_failed_publish_counterexample :
    publish_unsent_telemetry
        (fun n => if n = 1 then Status.success else Status.failure)
        (fun _ => false) sampleDB3 STATE_SENT = (sampleDB3, Status.failure) ∧
    (publish_unsent_telemetry
        (fun n => if n = 1 then Status.success else Status.failure)
        (fun _ => false) sampleDB3 STATE_SENT).1.telemetry.map
      (fun r => r.status) = [STATE_UNSENT, STATE_UNSENT, STATE_UNSENT] ∧
    STATE_UNSENT ≠ STATE_SENT := by decide

/-- C2 (amended): when the sender succeeds on the first `k` calls and
fails on call `k+1` (over a table holding at least `k+1` unsent rows),
`publish_unsent_telemetry` transitions NO rows — the `k` successfully
sent rows are not moved to the success state, because the batch update
runs only when the whole loop succeeded — the store is returned
unchanged (all rows keep their states), and the call reports the
non-success result of call `k+1`. -/
theorem C2_failed_publish_transitions_no_rows (db : DB) (new_state : String)
    (sender : Nat → Status) (updFail : Nat → Bool) (k : Nat)
    (hs : ∀ i, 1 ≤ i → i ≤ k → sender i = Status.success)
    (hf : sender (k + 1) ≠ Status.success)
    (hn : k + 1 ≤ (db.telemetry.filter (fun r => r.status = STATE_UNSENT)).length) :
    publish_unsent_telemetry sender updFail db new_state = (db, sender (k + 1)) ∧
    (publish_unsent_telemetry sender updFail db new_state).2 ≠ Status.success := by
  have h2 : (publish_loop sender
      (db.telemetry.filter (fun r => r.status = STATE_UNSENT)) 1 Status.failure).2 =
      sender (1 + k) := by
    apply publish_loop_fail_status sender k _ 1 Status.failure
    · intro i h1i hik
      exact hs i h1i (by omega)
    · have he : 1 + k = k + 1 := Nat.add_comm 1 k
      rw [he]; exact hf
    · omega
  have he : 1 + k = k + 1 := Nat.add_comm 1 k
  rw [he] at h2
  have hmain : publish_unsent_telemetry sender updFail db new_state =
      (db, sender (k + 1)) := by
    simp only [publish_unsent_telemetry]
    rw [h2, if_neg hf]
  refine ⟨hmain, ?_⟩
  rw [hmain]
  exact hf

/-- C2 witness: instantiates the amended theorem at three unsent rows
with a sender failing on call 2; the store is unchanged and the call
fails. -/
theorem C2_failed_publish_transitions_no_rows_witness :
    (1 + 1 ≤ (sampleDB3.telemetry.filter
        (fun r => r.status = STATE_UNSENT)).length) ∧
    publish_unsent_telemetry
        (fun n => if n = 1 then Status.success else Status.failure)
        (fun _ => false) sampleDB3 STATE_REMOVE = (sampleDB3, Status.failure) :=
  ⟨by decide, by
    have h := C2_failed_publish_transitions_no_rows sampleDB3 STATE_REMOVE
      (fun n => if n = 1 then Status.success else Status.failure)
      (fun _ => false) 1
      (fun i h1 h2 => by
        have h3 : i = 1 := Nat.le_antisymm h2 h1
        subst h3
        decide)
      (by decide) (by decide)
    simpa using h.1⟩

/-- C8: a `data_smooth_on_change` call with a field name outside the
registered `field_list` fails fast: it returns `None` having performed
no backend read and leaving every row's state (the whole store)
unchanged. -/
theorem C8_invalid_field_fails_fast (updFail : Nat → Bool) (db : DB)
    (table field_name : String) (plus_minus : Int) (state : String)
    (h : field_name ∉ field_list) :
    data_smooth_on_change updFail db table field_name plus_minus state =
      (db, 0, PyResult.ok none) := by
  unfold data_smooth_on_change
  rw [if_neg h]

/-- C8 witness: the unregistered field name `"bogus"` is rejected with no
backend read and no state change. -/
theorem C8_invalid_field_fails_fast_witness :
    ("bogus" ∉ field_list) ∧
    data_smooth_on_change (fun _ => false) sampleDB2 TELEMETRY "bogus" 0
        STATE_IGNORE = (sampleDB2, 0, PyResult.ok none) :=
  ⟨by decide,
   C8_invalid_field_fails_fast (fun _ => false) sampleDB2 TELEMETRY "bogus" 0
     STATE_IGNORE (by decide)⟩

/-- C1: the claim fails on the code.  `insert` replaces a falsy state
(`None` or `""`) with `STATE_SENT`, not `STATE_UNSENT` (sds.py lines
323-324), so an `insert_telemetry` whose caller omits `state` (the
wrapper passes `state=None`) persists the row with state `'sent'`. -/
theorem C1_falsy_state_persists_sent :
    (insert_telemetry defaultConfig (fun _ => false) sampleTs emptyDB
        (some "n") (some 5) none none none).map
      (fun p => p.1.telemetry.map (fun r => r.status)) = some [STATE_SENT] ∧
    (insert defaultConfig (fun _ => false) sampleTs emptyDB TELEMETRY
        (some "") insertDefaults).map
      (fun p => p.1.telemetry.map (fun r => r.status)) = some [STATE_SENT] ∧
    STATE_SENT ≠ STATE_UNSENT := by decide

/-- C3: the claim fails on the code for location rows.  `insert_location`
passes `longitude=latitude` (sds.py line 287), so a row inserted with
latitude 1 and longitude 2 reads back via `select_table` with longitude
1, not the supplied 2. -/
theorem C3_insert_location_stores_latitude_as_longitude :
    (insert_location defaultConfig (fun _ => false) sampleTs emptyDB
        (some 1) (some 2) none none none none none none none none).bind
      (fun p => select_table p.1 LOCATION) =
      some (TableRows.locationRows
        [⟨1, "location", "location", some 1, some 1, none, none, none, none,
          none, none, sampleTs, STATE_SENT⟩]) ∧
    (some (1 : Int) ≠ some (2 : Int)) := by decide

/-- C9: `get_row_count` returns 0 for an empty table and 0 on a query
failure, but for an invalid table name its local `count` is never
assigned, so the final `if not count` raises UnboundLocalError
(embedded as `none`) instead of returning an integer. -/
theorem C9_get_row_count_eval :
    get_row_count emptyDB TELEMETRY false = some 0 ∧
    get_row_count sampleDB3 TELEMETRY true = some 0 ∧
    get_row_count sampleDB3 TELEMETRY false = some 3 ∧
    get_row_count emptyDB "bogus" false = none := by decide

theorem smooth_scan_cons_falsy (pm : Int) (last : Option Int) (i : Nat)
    (curr : Option Int) (rest : List (Nat × Option Int))
    (h : pyTruthyNum last = false) :
    smooth_scan pm last ((i, curr) :: rest) = smooth_scan pm curr rest := by
  conv_lhs => unfold smooth_scan
  rw [h]
  simp

theorem smooth_scan_cons_truthy (pm l c : Int) (i : Nat)
    (rest : List (Nat × Option Int)) (hl : l ≠ 0) :
    smooth_scan pm (some l) ((i, some c) :: rest) =
      if c = l ∨ (c > l ∧ c - pm ≤ l) ∨ (c < l ∧ c + pm ≥ l) then
        (smooth_scan pm (some c) rest).map (fun t => i :: t)
      else
        smooth_scan pm (some c) rest := by
  conv_lhs => unfold smooth_scan
  rw [if_pos (show pyTruthyNum (some l) = true by simp [pyTruthyNum, hl])]

/-- One-step unfolding of `marksFrom` at a cons cell. -/
theorem marksFrom_cons (pm pv c : Int) (i : Nat) (rest : List (Nat × Int)) :
    marksFrom pm pv ((i, c) :: rest) =
      if pv ≠ 0 ∧ (c = pv ∨ (c > pv ∧ c - pm ≤ pv) ∨ (c < pv ∧ c + pm ≥ pv)) then
        i :: marksFrom pm c rest
      else
        marksFrom pm c rest := by
  conv_lhs => unfold marksFrom

/-- On all-present values the walk never raises and computes `marksFrom`
of the previous value. -/
theorem smooth_scan_some_eq (pm : Int) :
    ∀ (l : List (Nat × Int)) (pv : Int),
      smooth_scan pm (some pv) (toScanRows l) = some (marksFrom pm pv l) := by
  intro l
  induction l with
  | nil => intro pv; rfl
  | cons b rest ih =>
    intro pv
    obtain ⟨i, c⟩ := b
    show smooth_scan pm (some pv) ((i, some c) :: toScanRows rest) = _
    by_cases hz : pv = 0
    · subst hz
      rw [smooth_scan_cons_falsy pm (some 0) i (some c) _ (by decide)]
      rw [ih c]
      rw [marksFrom_cons]
      rw [if_neg (by simp)]
    · rw [smooth_scan_cons_truthy pm pv c i _ hz]
      by_cases hc : (c = pv ∨ (c > pv ∧ c - pm ≤ pv) ∨ (c < pv ∧ c + pm ≥ pv))
      · rw [if_pos hc, ih c]
        rw [marksFrom_cons]
        rw [if_pos ⟨hz, hc⟩]
        rfl
      · rw [if_neg hc, ih c]
        rw [marksFrom_cons]
        rw [if_neg (fun h => hc h.2)]

/-- `marksFrom` is the pairwise local rule, applied to each row paired
with its predecessor. -/
theorem marksFrom_eq_pairs (pm : Int) :
    ∀ (l : List (Nat × Int)) (a : Nat × Int),
      marksFrom pm a.2 l = ((a :: l).zip l).filterMap
        (fun pq => if pq.1.2 ≠ 0 ∧ (pq.2.2 = pq.1.2 ∨
            (pq.2.2 > pq.1.2 ∧ pq.2.2 - pm ≤ pq.1.2) ∨
            (pq.2.2 < pq.1.2 ∧ pq.2.2 + pm ≥ pq.1.2)) then some pq.2.1
          else none) := by
  intro l
  induction l with
  | nil => intro a; rfl
  | cons b rest ih =>
    intro a
    obtain ⟨i, c⟩ := b
    rw [List.zip_cons_cons, List.filterMap_cons]
    by_cases hc : (a.2 ≠ 0 ∧ (c = a.2 ∨ (c > a.2 ∧ c - pm ≤ a.2) ∨
        (c < a.2 ∧ c + pm ≥ a.2)))
    · rw [marksFrom_cons]
      rw [if_pos hc]
      have hfa : (if (a, (i, c)).1.2 ≠ 0 ∧ ((a, (i, c)).2.2 = (a, (i, c)).1.2 ∨
          ((a, (i, c)).2.2 > (a, (i, c)).1.2 ∧ (a, (i, c)).2.2 - pm ≤ (a, (i, c)).1.2) ∨
          ((a, (i, c)).2.2 < (a, (i, c)).1.2 ∧ (a, (i, c)).2.2 + pm ≥ (a, (i, c)).1.2))
          then some (a, (i, c)).2.1 else none) = some i := by
        rw [if_pos hc]
      rw [hfa]
      rw [ih (i, c)]
    · rw [marksFrom_cons]
      rw [if_neg hc]
      have hfa : (if (a, (i, c)).1.2 ≠ 0 ∧ ((a, (i, c)).2.2 = (a, (i, c)).1.2 ∨
          ((a, (i, c)).2.2 > (a, (i, c)).1.2 ∧ (a, (i, c)).2.2 - pm ≤ (a, (i, c)).1.2) ∨
          ((a, (i, c)).2.2 < (a, (i, c)).1.2 ∧ (a, (i, c)).2.2 + pm ≥ (a, (i, c)).1.2))
          then some (a, (i, c)).2.1 else none) = none := by
        rw [if_neg hc]
      rw [hfa]
      rw [ih (i, c)]

/-- On a non-empty all-present sequence the walk computes `marksFrom`
seeded with the first row's value (the first row is never marked). -/
theorem scan_marks_cons (pm : Int) (a : Nat × Int) (rest : List (Nat × Int)) :
    scan_marks pm (a :: rest) = marksFrom pm a.2 rest := by
  unfold scan_marks
  rw [show toScanRows (a :: rest) = (a.1, some a.2) :: toScanRows rest from rfl]
  rw [smooth_scan_cons_falsy pm none a.1 (some a.2) _ rfl]
  rw [smooth_scan_some_eq pm rest a.2]
  rfl

/-- Every marked index is the index of some scanned row. -/
theorem mem_marksFrom (pm : Int) :
    ∀ (l : List (Nat × Int)) (pv : Int) (x : Nat),
      x ∈ marksFrom pm pv l → x ∈ l.map Prod.fst := by
  intro l
  induction l with
  | nil =>
    intro pv x h
    simp [marksFrom] at h
  | cons b rest ih =>
    intro pv x h
    obtain ⟨i, c⟩ := b
    rw [marksFrom_cons] at h
    show x ∈ i :: rest.map Prod.fst
    by_cases hc : (pv ≠ 0 ∧ (c = pv ∨ (c > pv ∧ c - pm ≤ pv) ∨
        (c < pv ∧ c + pm ≥ pv)))
    · rw [if_pos hc] at h
      rcases List.mem_cons.mp h with h1 | h2
      · exact List.mem_cons.mpr (Or.inl h1)
      · exact List.mem_cons.mpr (Or.inr (ih c x h2))
    · rw [if_neg hc] at h
      exact List.mem_cons.mpr (Or.inr (ih c x h))

/-- A row directly after a zero-valued row is never marked, wherever the
pair sits in the walk. -/
theorem marksFrom_not_mem_after_zero (pm vb : Int) (ia ib : Nat) :
    ∀ (pre : List (Nat × Int)) (pv : Int) (post : List (Nat × Int)),
      ib ∉ pre.map Prod.fst → ib ≠ ia → ib ∉ post.map Prod.fst →
      ib ∉ marksFrom pm pv (pre ++ (ia, 0) :: (ib, vb) :: post) := by
  intro pre
  induction pre with
  | nil =>
    intro pv post hpre hia hpost hmem
    rw [List.nil_append] at hmem
    rw [marksFrom_cons] at hmem
    have hzero : ∀ hm : ib ∈ marksFrom pm 0 ((ib, vb) :: post), False := by
      intro hm
      rw [marksFrom_cons] at hm
      rw [if_neg (by simp)] at hm
      exact hpost (mem_marksFrom pm post vb ib hm)
    by_cases hc : (pv ≠ 0 ∧ ((0 : Int) = pv ∨ ((0 : Int) > pv ∧ (0 : Int) - pm ≤ pv) ∨
        ((0 : Int) < pv ∧ (0 : Int) + pm ≥ pv)))
    · rw [if_pos hc] at hmem
      rcases List.mem_cons.mp hmem with h1 | h2
      · exact hia h1
      · exact hzero h2
    · rw [if_neg hc] at hmem
      exact hzero hmem
  | cons p pre2 ih =>
    intro pv post hpre hia hpost hmem
    obtain ⟨q, w⟩ := p
    have hq1 : ib ≠ q := by
      intro h
      exact hpre (List.mem_cons.mpr (Or.inl h))
    have hq2 : ib ∉ pre2.map Prod.fst := by
      intro h
      exact hpre (List.mem_cons.mpr (Or.inr h))
    rw [List.cons_append] at hmem
    rw [marksFrom_cons] at hmem
    by_cases hc : (pv ≠ 0 ∧ (w = pv ∨ (w > pv ∧ w - pm ≤ pv) ∨
        (w < pv ∧ w + pm ≥ pv)))
    · rw [if_pos hc] at hmem
      rcases List.mem_cons.mp hmem with h1 | h2
      · exact hq1 h1
      · exact ih w post hq2 hia hpost h2
    · rw [if_neg hc] at hmem
      exact ih w post hq2 hia hpost hmem

/-- C5 counterexample: on values `[0, 0]` with threshold 0 the walk
marks nothing — `scan_marks` is empty, row 2 is not marked — although
the previous value is set (row 1 exists, value 0) and the claim's
marking rule holds there (`v = previous_value`): the code's `if last:`
treats the previous value 0 as *no* previous value. -/
theorem C5_zero_previous_value_counterexample :
    (scan_marks 0 [(1, 0), (2, 0)] = [] ∧ 2 ∉ scan_marks 0 [(1, 0), (2, 0)]) ∧
    ((0 : Int) = 0 ∨ ((0 : Int) > 0 ∧ (0 : Int) - 0 ≤ 0) ∨
      ((0 : Int) < 0 ∧ (0 : Int) + 0 ≥ 0)) := by decide

/-- C5 (amended): the walk over the unsent rows' `(index, value)` pairs
maintains `previous_value` (initially none, updated to the row's value
whether or not the row was marked) and marks a row with value `v`
exactly when the previous row exists, its value is *truthy (non-zero)*
— `if last:`, not merely set — and `v == previous_value`, or
`v > previous_value` with `v - threshold ≤ previous_value`, or
`v < previous_value` with `v + threshold ≥ previous_value`: the marked
indices are exactly the second components of the adjacent pairs
satisfying that rule, in order.  Consequently `[5, 5, 5]` with threshold
0 marks rows 2 and 3, `[5, 6, 7]` with threshold 2 marks rows 2 and 3,
and `[5, 10]` with threshold 2 marks nothing. -/
theorem C5_scan_marks_characterization :
    (∀ (pm : Int) (l : List (Nat × Int)),
      smooth_scan pm none (toScanRows l) =
        some ((l.zip l.tail).filterMap
          (fun pq => if pq.1.2 ≠ 0 ∧ (pq.2.2 = pq.1.2 ∨
              (pq.2.2 > pq.1.2 ∧ pq.2.2 - pm ≤ pq.1.2) ∨
              (pq.2.2 < pq.1.2 ∧ pq.2.2 + pm ≥ pq.1.2)) then some pq.2.1
            else none))) ∧
    scan_marks 0 [(1, 5), (2, 5), (3, 5)] = [2, 3] ∧
    scan_marks 2 [(1, 5), (2, 6), (3, 7)] = [2, 3] ∧
    scan_marks 2 [(1, 5), (2, 10)] = [] := by
  refine ⟨?_, by decide, by decide, by decide⟩
  intro pm l
  match l with
  | [] => rfl
  | a :: rest =>
    show smooth_scan pm none ((a.1, some a.2) :: toScanRows rest) = _
    rw [smooth_scan_cons_falsy pm none a.1 (some a.2) _ rfl]
    rw [smooth_scan_some_eq pm rest a.2]
    rw [marksFrom_eq_pairs pm rest a]
    rfl

/-- C10: a previous field value of 0 (the only falsy numeric value of
the embedding) is treated like a missing previous value: in any scanned
sequence, the row immediately following a row whose compared value is 0
is never marked, whatever the threshold and its own value. -/
theorem C10_zero_previous_never_marks_next (pm vb : Int) (ia ib : Nat)
    (pre post : List (Nat × Int))
    (h1 : ib ∉ pre.map Prod.fst) (h2 : ib ≠ ia)
    (h3 : ib ∉ post.map Prod.fst) :
    ib ∉ scan_marks pm (pre ++ (ia, 0) :: (ib, vb) :: post) := by
  intro hmem
  cases pre with
  | nil =>
    rw [List.nil_append] at hmem
    rw [scan_marks_cons pm (ia, 0) ((ib, vb) :: post)] at hmem
    rw [marksFrom_cons] at hmem
    rw [if_neg (by simp)] at hmem
    exact h3 (mem_marksFrom pm post vb ib hmem)
  | cons p pre2 =>
    have hq1 : ib ≠ p.1 := by
      intro h
      apply h1
      rw [List.map_cons]
      exact List.mem_cons.mpr (Or.inl h)
    have hq2 : ib ∉ pre2.map Prod.fst := by
      intro h
      apply h1
      rw [List.map_cons]
      exact List.mem_cons.mpr (Or.inr h)
    rw [List.cons_append] at hmem
    rw [scan_marks_cons pm p (pre2 ++ (ia, 0) :: (ib, vb) :: post)] at hmem
    exact marksFrom_not_mem_after_zero pm vb ia ib pre2 p.2 post hq2 h2 h3 hmem

/-- C10 witness: in the sequence `[(1, 0), (2, 0)]` with threshold 7,
row 2 (which follows the zero-valued row 1) is not marked. -/
theorem C10_zero_previous_never_marks_next_witness :
    ((2 : Nat) ∉ (([] : List (Nat × Int)).map Prod.fst) ∧ (2 : Nat) ≠ 1 ∧
      (2 : Nat) ∉ (([] : List (Nat × Int)).map Prod.fst)) ∧
    (2 : Nat) ∉ scan_marks 7 ([] ++ (1, (0 : Int)) :: (2, (0 : Int)) :: []) :=
  ⟨⟨by decide, by decide, by decide⟩,
   C10_zero_previous_never_marks_next 7 0 1 2 [] [] (by decide) (by decide)
     (by decide)⟩

/-- C4: the claim fails on the code.  `data_smooth_on_change` updates
every marked row to the constant `STATE_IGNORE` (sds.py line 430),
ignoring its `state` argument (whose own docstring says it is the state
to mark flagged entries with): called with `mark_state = STATE_RETAIN`
on two equal-valued unsent rows, it marks row 2, returns the full list
`[2]`, and leaves row 2 in state `'ignore'`, not `'retain'`. -/
theorem C4_smooth_updates_ignore_not_mark_state :
    (data_smooth_on_change (fun _ => false) sampleDB2 TELEMETRY
        TELEMETRY_VALUE 0 STATE_RETAIN).2.2 = PyResult.ok (some [2]) ∧
    (data_smooth_on_change (fun _ => false) sampleDB2 TELEMETRY
        TELEMETRY_VALUE 0 STATE_RETAIN).1.telemetry.map (fun r => r.status) =
      [STATE_UNSENT, STATE_IGNORE] ∧
    STATE_IGNORE ≠ STATE_RETAIN := by decide

end SDS
